import Mathlib

/-!
Verification of the queue-statistics aggregation and key-inspection
subsystem of the Bull queue dashboard (server.js).

The JavaScript server code is shallowly embedded: each route handler and
helper becomes a pure Lean function whose I/O results (Redis replies,
Bull query batches, clock readings) are passed in explicitly.  JavaScript
numbers are modelled as `Option ℚ` where `none` stands for `NaN`; machine
floating point is not exercised by any property proved here (all concrete
inputs are small integers or short decimal fractions, which `ℚ` represents
exactly).
-/

/- Rational arithmetic is kept kernel-computable so that concrete witness
evaluations go through `decide`. -/
attribute [local semireducible] Rat.add Rat.mul Rat.sub Rat.inv

/- ### JavaScript numeric model -/

/-- A JavaScript number: `none` models `NaN`.  (`Infinity` is not modelled;
every division in the embedded code is guarded by a positivity test on the
denominator, so a zero denominator is mapped to `none` and never reached.) -/
abbrev JSNum := Option ℚ

def jadd : JSNum → JSNum → JSNum
  | some a, some b => some (a + b)
  | _, _ => none

def jsub : JSNum → JSNum → JSNum
  | some a, some b => some (a - b)
  | _, _ => none

def jmul : JSNum → JSNum → JSNum
  | some a, some b => some (a * b)
  | _, _ => none

def jdiv : JSNum → JSNum → JSNum
  | some a, some b => if b = 0 then none else some (a / b)
  | _, _ => none

/-- `Math.min`: `NaN` is absorbing. -/
def jmin : JSNum → JSNum → JSNum
  | some a, some b => some (min a b)
  | _, _ => none

/-- `Math.max`: `NaN` is absorbing. -/
def jmax : JSNum → JSNum → JSNum
  | some a, some b => some (max a b)
  | _, _ => none

/-- Whitespace trim over the character list (model of `String.trim` /
the leading-whitespace skip of the JavaScript numeric parsers). -/
def jsTrim (s : String) : String :=
  String.mk
    (((s.toList.dropWhile Char.isWhitespace).reverse.dropWhile
        Char.isWhitespace).reverse)

/-- Lexicographic code-point comparison of character lists.  On the ASCII
strings this repository compares, this coincides with the UTF-16 code-unit
order used by JavaScript string comparison and `Array.prototype.sort()`. -/
def charListLe : List Char → List Char → Bool
  | [], _ => true
  | _ :: _, [] => false
  | a :: as, b :: bs =>
    if a.toNat < b.toNat then true
    else if b.toNat < a.toNat then false
    else charListLe as bs

/-- JavaScript `a <= b` on strings (restricted to ASCII content). -/
def strLe (a b : String) : Bool := charListLe a.toList b.toList

/-- `String.prototype.split(":")` helper: accumulate the current segment
(reversed) while scanning. -/
def splitOnColon : List Char → List Char → List String
  | [], cur => [String.mk cur.reverse]
  | c :: cs, cur =>
    if c = ':' then String.mk cur.reverse :: splitOnColon cs []
    else splitOnColon cs (c :: cur)

/-- JavaScript `s.split(":")`. -/
def jsSplitColon (s : String) : List String := splitOnColon s.toList []

/-- `String.prototype.split("\r\n")` helper. -/
def splitCRLF : List Char → List Char → List String
  | [], cur => [String.mk cur.reverse]
  | '\r' :: '\n' :: cs, cur => String.mk cur.reverse :: splitCRLF cs []
  | c :: cs, cur => splitCRLF cs (c :: cur)

/-- JavaScript `s.split("\r\n")`. -/
def jsSplitCRLF (s : String) : List String := splitCRLF s.toList []

/-- JavaScript `line.startsWith("#")`. -/
def startsWithHash (s : String) : Bool :=
  match s.toList with
  | '#' :: _ => true
  | _ => false

/-- Read a run of leading decimal digits; returns the accumulated value,
the number of digits read, and the remaining characters. -/
def readDigits : List Char → Nat → Nat → Nat × Nat × List Char
  | [], acc, n => (acc, n, [])
  | c :: cs, acc, n =>
    if c.isDigit then readDigits cs (acc * 10 + (c.toNat - 48)) (n + 1)
    else (acc, n, c :: cs)

/-- Read an optional leading sign. -/
def readSign : List Char → ℚ × List Char
  | '-' :: cs => (-1, cs)
  | '+' :: cs => (1, cs)
  | cs => (1, cs)

/-- Model of JavaScript `parseFloat` restricted to plain decimal literals
with an optional exponent, which is the only shape Redis `INFO` emits
(`Infinity` literals and hexadecimal input are not modelled).  `none` is
`NaN` (no digits at all). -/
def jsParseFloat (s : String) : JSNum :=
  let (sign, cs) := readSign (jsTrim s).toList
  let (ipart, ni, r1) := readDigits cs 0 0
  let (fpart, nf, r2) :=
    match r1 with
    | '.' :: rest => readDigits rest 0 0
    | _ => (0, 0, r1)
  if ni + nf = 0 then none
  else
    let base : ℚ := sign * ((ipart : ℚ) + (fpart : ℚ) / ((10 : ℚ) ^ nf))
    let expVal : ℤ :=
      match r2 with
      | 'e' :: rest | 'E' :: rest =>
        let (esign, rest1) := readSign rest
        let (ev, ne, _) := readDigits rest1 0 0
        if ne = 0 then 0 else if esign < 0 then -(ev : ℤ) else (ev : ℤ)
      | _ => 0
    some (base * (10 : ℚ) ^ expVal)

/-- Model of JavaScript `parseInt` with the default radix on plain decimal
input (the only shape Redis `INFO` emits; a `0x` prefix is not modelled).
`none` is `NaN`. -/
def jsParseInt (s : String) : JSNum :=
  let (sign, cs) := readSign (jsTrim s).toList
  let (ipart, ni, _) := readDigits cs 0 0
  if ni = 0 then none else some (sign * (ipart : ℚ))

/-- Property read on a JavaScript object built by successive assignments:
the last assignment to a key wins. -/
def objGet (obj : List (String × String)) (k : String) : Option String :=
  (obj.reverse.find? (fun p => p.1 = k)).map (fun p => p.2)

/-- `parseFloat(info.k || 0)`: a missing or empty (falsy) field falls back
to the number `0`; otherwise the string value is parsed. -/
def getNumField (obj : List (String × String)) (k : String) : JSNum :=
  match objGet obj k with
  | none => some 0
  | some s => if s = "" then some 0 else jsParseFloat s

/-- `parseInt(info.k || 0)`: a missing or empty (falsy) field falls back
to the number `0`; otherwise the string value is parsed. -/
def getIntField (obj : List (String × String)) (k : String) : JSNum :=
  match objGet obj k with
  | none => some 0
  | some s => if s = "" then some 0 else jsParseInt s

def twoDigitString (m : Nat) : String :=
  if m < 10 then "0" ++ toString m else toString m

/-- Model of JavaScript `Number.prototype.toFixed(2)` on the value range
used by the dashboard (rounding to the nearest hundredth, ties away from
zero; the `≥ 1e21` exponential form is not modelled). `NaN` renders as
`"NaN"`. -/
def jsToFixed2 : JSNum → String
  | none => "NaN"
  | some q =>
    if q < 0 then
      let n := (Int.floor (-q * 100 + 1 / 2)).toNat
      "-" ++ toString (n / 100) ++ "." ++ twoDigitString (n % 100)
    else
      let n := (Int.floor (q * 100 + 1 / 2)).toNat
      toString (n / 100) ++ "." ++ twoDigitString (n % 100)

/-- `Math.round`: round half toward positive infinity; `NaN` propagates. -/
def jsMathRound : JSNum → JSNum
  | none => none
  | some q => some ((Int.floor (q + 1 / 2) : ℤ) : ℚ)

/-- `(totalBytes / (1024 * 1024)).toFixed(2)` -/
def formatMB (bytes : Nat) : String :=
  jsToFixed2 (some ((bytes : ℚ) / (1024 * 1024)))

/-- `` `${(memoryUsage / 1024).toFixed(2)} KB` `` -/
def formatKB (bytes : Nat) : String :=
  jsToFixed2 (some ((bytes : ℚ) / 1024)) ++ " KB"

/- ### Queue statistics aggregator (`getQueueStats`) -/

/-- `{bytes, mb}` memory-usage annotation. -/
structure MemoryUsage where
  bytes : Nat
  mb : String
deriving DecidableEq

/-- The record shape produced by `getQueueStats` and by the `/api/queues`
handlers.  `error` is `none` when the field is absent from the object. -/
structure QueueStatsRecord where
  name : String
  waiting : Nat
  active : Nat
  completed : Nat
  failed : Nat
  delayed : Nat
  paused : Bool
  total : Nat
  memoryUsage : Option MemoryUsage
  error : Option String
  lastUpdated : String
deriving DecidableEq

/-- The result of the five-count-and-pause `Promise.all` batch: the lengths
of the five job arrays plus the pause flag. -/
structure QueueCounts where
  waiting : Nat
  active : Nat
  completed : Nat
  failed : Nat
  delayed : Nat
  paused : Bool
deriving DecidableEq

/-- `getQueueStats(queueName, queue)`.

`batch` is the outcome of the six-way `Promise.all` (an exception carries
its message).  `keysResult` is the outcome of `redisClient.keys` for the
queue's namespace pattern together with the per-key `memoryUsage` replies:
each element is `some n` for a numeric reply and `none` for a `null` reply
or a per-key failure (both of which the source turns into `0`, via the
inner `catch` and the `(size || 0)` in the reduce).  `nowIso` is
`new Date().toISOString()`. -/
def getQueueStats (queueName : String) (batch : Except String QueueCounts)
    (keysResult : Except String (List (Option Nat))) (nowIso : String) :
    QueueStatsRecord :=
  match batch with
  | .error msg =>
    { name := queueName, waiting := 0, active := 0, completed := 0,
      failed := 0, delayed := 0, paused := false, total := 0,
      memoryUsage := none, error := some msg, lastUpdated := nowIso }
  | .ok c =>
    let memoryUsage : Option MemoryUsage :=
      match keysResult with
      | .error _ => none
      | .ok sizes =>
        if 0 < sizes.length then
          let totalBytes := sizes.foldl (fun sum size => sum + size.getD 0) 0
          some { bytes := totalBytes, mb := formatMB totalBytes }
        else none
    { name := queueName, waiting := c.waiting, active := c.active,
      completed := c.completed, failed := c.failed, delayed := c.delayed,
      paused := c.paused,
      total := c.waiting + c.active + c.completed + c.failed + c.delayed,
      memoryUsage := memoryUsage, error := none, lastUpdated := nowIso }

/-- C1: every snapshot returned by `getQueueStats` whose `error` field is
absent has `total` equal to the arithmetic sum of the five count fields. -/
theorem claim_C1_total_is_sum (queueName : String)
    (batch : Except String QueueCounts)
    (keysResult : Except String (List (Option Nat))) (nowIso : String)
    (h : (getQueueStats queueName batch keysResult nowIso).error = none) :
    (getQueueStats queueName batch keysResult nowIso).total =
      (getQueueStats queueName batch keysResult nowIso).waiting +
      (getQueueStats queueName batch keysResult nowIso).active +
      (getQueueStats queueName batch keysResult nowIso).completed +
      (getQueueStats queueName batch keysResult nowIso).failed +
      (getQueueStats queueName batch keysResult nowIso).delayed := by
  cases batch with
  | error msg => simp [getQueueStats] at h
  | ok c => simp [getQueueStats]

/-- C1 witness: a concrete successful snapshot (counts 1,2,3,4,5) has no
`error` field and `total = 15`. -/
theorem claim_C1_witness :
    (getQueueStats "orders" (Except.ok ⟨1, 2, 3, 4, 5, false⟩)
        (Except.ok []) "t").total =
      (getQueueStats "orders" (Except.ok ⟨1, 2, 3, 4, 5, false⟩)
        (Except.ok []) "t").waiting +
      (getQueueStats "orders" (Except.ok ⟨1, 2, 3, 4, 5, false⟩)
        (Except.ok []) "t").active +
      (getQueueStats "orders" (Except.ok ⟨1, 2, 3, 4, 5, false⟩)
        (Except.ok []) "t").completed +
      (getQueueStats "orders" (Except.ok ⟨1, 2, 3, 4, 5, false⟩)
        (Except.ok []) "t").failed +
      (getQueueStats "orders" (Except.ok ⟨1, 2, 3, 4, 5, false⟩)
        (Except.ok []) "t").delayed :=
  claim_C1_total_is_sum "orders" (Except.ok ⟨1, 2, 3, 4, 5, false⟩)
    (Except.ok []) "t" (by decide)

/-- C4: when the five-query batch fails, `getQueueStats` returns (rather
than throws) a snapshot with all five counts and `total` zeroed, `paused`
false, `memoryUsage` null, and `error` carrying the failure message. -/
theorem claim_C4_batch_failure_zeroed (queueName msg : String)
    (keysResult : Except String (List (Option Nat))) (nowIso : String) :
    getQueueStats queueName (Except.error msg) keysResult nowIso =
      { name := queueName, waiting := 0, active := 0, completed := 0,
        failed := 0, delayed := 0, paused := false, total := 0,
        memoryUsage := none, error := some msg, lastUpdated := nowIso } :=
  rfl

/- ### `GET /api/queues` handler -/

/-- JavaScript `Set.add`: insert keeping the first occurrence's position. -/
def insertSet (acc : List String) (s : String) : List String :=
  if s ∈ acc then acc else acc ++ [s]

/-- Stable insertion into a lexicographically ascending list. -/
def insertAsc (s : String) : List String → List String
  | [] => [s]
  | x :: xs => if strLe s x then s :: x :: xs else x :: insertAsc s xs

/-- `Array.prototype.sort()` on distinct ASCII strings: lexicographic
ascending order (UTF-16 code-unit order coincides with code-point order on
ASCII). -/
def sortStrings (l : List String) : List String :=
  l.foldl (fun acc s => insertAsc s acc) []

/-- The hard-coded `knownQueues` array in the `/api/queues` handler. -/
def knownQueues : List String :=
  ["CRON_CAPACITY_RESOURCE_UPDATE",
   "CRON_SRVC_TYPE_PERIODIC_AUTOMATIONS",
   "WIFY_ASSIGNMENT_EXPORT_BY_EMAIL",
   "WIFY_AUTO_ASSIGN_AUTHORITY_ON_EXISTING_SRVC_REQS",
   "WIFY_AUTO_ASSIGN_AUTORITY_GET_SRVC_REQ_OF_SRVC_TYPE",
   "WIFY_COPY_LAST_SEEN_FROM_REDIS_TO_DB",
   "WIFY_CREATE_API_LOGS",
   "WIFY_GAI_RATING_FOR_TECHNICIAN_SUBTASK",
   "WIFY_GET_ALL_USERS_LAST_SEEN_FOR_COPY_TO_DB",
   "WIFY_NEW_SBTSK_CREATION_NOTIFICATION",
   "WIFY_NOTIFICATION_SEND_FCM",
   "WIFY_PROCESS_RATINGS_QUEUE",
   "WIFY_TMS_LOC_MAPPING_QUEUE",
   "WIFY_SRVC_REQ_EXPORT_BY_EMAIL",
   "WIFY_SBTSK_REQ_STATUS_UPDATE_WORKFLOW",
   "WIFY_SBTSK_REQ_CREATION_WORKFLOW",
   "WIFY_SRVC_REQ_CREATION_WORKFLOW"]

/-- `app.get("/api/queues")`.  `registry` is the current key list of the
`discoveredQueues` map (empty whenever the backing store has been
unreachable since start-up, because discovery never registered anything).
The handler performs no Redis call at all: it unions the registry with the
hard-coded `knownQueues` list, sorts, and returns name-only records with
zeroed counts and HTTP status 200.  Nothing in the handler body can throw,
so the 500 branch of its `catch` is unreachable and not modelled. -/
def apiQueuesHandler (registry : List String) (nowIso : String) :
    Nat × List QueueStatsRecord :=
  let allQueueNames := knownQueues.foldl insertSet (registry.foldl insertSet [])
  let queueNames := sortStrings allQueueNames
  (200,
    queueNames.map (fun name =>
      { name := name, waiting := 0, active := 0, completed := 0,
        failed := 0, delayed := 0, paused := false, total := 0,
        memoryUsage := none, error := none, lastUpdated := nowIso }))

/-- C2 counterexample: with the backing store down (empty registry), the
`/api/queues` body is NOT an empty array — the hard-coded known-queue
names are still returned. -/
theorem claim_C2_counterexample :
    (apiQueuesHandler [] "2024-01-01T00:00:00.000Z").2 ≠ [] := by
  decide

/-- C2 (amended): with the backing store down, `GET /api/queues` still
returns HTTP 200 — but the body is the 17 hard-coded known queue names
(sorted, with zeroed counts), not an empty array. -/
theorem claim_C2_known_queues_200 (nowIso : String) :
    (apiQueuesHandler [] nowIso).1 = 200 ∧
      (apiQueuesHandler [] nowIso).2 =
        (sortStrings knownQueues).map (fun name =>
          { name := name, waiting := 0, active := 0, completed := 0,
            failed := 0, delayed := 0, paused := false, total := 0,
            memoryUsage := none, error := none, lastUpdated := nowIso }) ∧
      (apiQueuesHandler [] nowIso).2.length = 17 := by
  refine ⟨rfl, rfl, ?_⟩
  simp only [apiQueuesHandler, List.length_map]
  decide

/- ### `discoverQueues` -/

/-- The queue-name extraction loop of `discoverQueues`: split each key on
`":"`, keep `parts[1]` when there are at least two parts and `parts[0]`
is `"bull"`, and union into a `Set` (first occurrence kept). -/
def extractQueueNames (keys : List String) : List String :=
  keys.foldl (fun acc key =>
    let parts := jsSplitColon key
    if 2 ≤ parts.length ∧ parts.headD "" = "bull" then
      insertSet acc (parts.getD 1 "")
    else acc) []

/-- `discoverQueues()`.  `isOpen` is `redisClient.isOpen`; `keysResult` the
outcome of `redisClient.keys("bull:*")`; `registry` the current key list of
the `discoveredQueues` map; `ctorFails name = true` models the
`new Bull(name, ...)` constructor throwing for that name.  Returns the
array handed back to the caller together with the updated registry. -/
def discoverQueues (isOpen : Bool) (keysResult : Except String (List String))
    (registry : List String) (ctorFails : String → Bool) :
    List String × List String :=
  if isOpen = false then ([], registry)
  else
    match keysResult with
    | .error _ => ([], registry)
    | .ok keys =>
      let queueNames := extractQueueNames keys
      let registry1 := queueNames.foldl (fun reg name =>
        if name ∈ reg then reg
        else if ctorFails name then reg
        else reg ++ [name]) registry
      (queueNames, registry1)

/-- C6 counterexample: key `"bull:a:1"` is scanned, the handle constructor
fails for `"a"`, yet the cycle's returned result still contains `"a"`
(and the registry stays empty) — the identifier is NOT dropped from the
result. -/
theorem claim_C6_counterexample :
    (discoverQueues true (Except.ok ["bull:a:1"]) [] (fun _ => true)).1
        = ["a"] ∧
      (discoverQueues true (Except.ok ["bull:a:1"]) [] (fun _ => true)).2
        = [] := by
  constructor <;> rfl

/-- Registry-update loop of `discoverQueues`: membership in the updated
registry. -/
theorem discoverLoop_mem (ctorFails : String → Bool) (names : List String) :
    ∀ (registry : List String) (n : String),
      (n ∈ names.foldl (fun reg name =>
          if name ∈ reg then reg
          else if ctorFails name then reg
          else reg ++ [name]) registry) ↔
        (n ∈ registry ∨ (n ∈ names ∧ ctorFails n = false)) := by
  induction names with
  | nil => intro registry n; simp
  | cons a t ih =>
    intro registry n
    simp only [List.foldl_cons]
    by_cases ha : a ∈ registry
    · rw [if_pos ha, ih]
      constructor
      · rintro (h | ⟨hm, hf⟩)
        · exact Or.inl h
        · exact Or.inr ⟨List.mem_cons_of_mem a hm, hf⟩
      · rintro (h | ⟨hm, hf⟩)
        · exact Or.inl h
        · rcases List.mem_cons.mp hm with rfl | hm1
          · exact Or.inl ha
          · exact Or.inr ⟨hm1, hf⟩
    · rw [if_neg ha]
      by_cases hfa : ctorFails a
      · rw [if_pos hfa, ih]
        constructor
        · rintro (h | ⟨hm, hf⟩)
          · exact Or.inl h
          · exact Or.inr ⟨List.mem_cons_of_mem a hm, hf⟩
        · rintro (h | ⟨hm, hf⟩)
          · exact Or.inl h
          · rcases List.mem_cons.mp hm with rfl | hm1
            · rw [hfa] at hf; cases hf
            · exact Or.inr ⟨hm1, hf⟩
      · rw [if_neg hfa, ih]
        constructor
        · rintro (h | ⟨hm, hf⟩)
          · rcases List.mem_append.mp h with h1 | h1
            · exact Or.inl h1
            · have h2 := List.mem_singleton.mp h1
              exact Or.inr ⟨List.mem_cons.mpr (Or.inl h2),
                by rw [h2]; exact Bool.eq_false_iff.mpr hfa⟩
          · exact Or.inr ⟨List.mem_cons_of_mem a hm, hf⟩
        · rintro (h | ⟨hm, hf⟩)
          · exact Or.inl (List.mem_append_left _ h)
          · rcases List.mem_cons.mp hm with rfl | hm1
            · exact Or.inl (List.mem_append_right _ (List.mem_singleton.mpr rfl))
            · exact Or.inr ⟨hm1, hf⟩

/-- C6 (amended): when a newly seen identifier's handle construction
fails, the identifier is simply not added to the registry and discovery
continues — but the cycle's returned result is always the full scanned
identifier set, independent of which constructions failed; every other
newly seen identifier (and every previously registered one) ends up in
the registry. -/
theorem claim_C6_failed_not_registered (keys : List String)
    (registry : List String) (ctorFails : String → Bool) :
    (discoverQueues true (Except.ok keys) registry ctorFails).1 =
        extractQueueNames keys ∧
      ∀ n, n ∈ (discoverQueues true (Except.ok keys) registry ctorFails).2 ↔
        (n ∈ registry ∨ (n ∈ extractQueueNames keys ∧ ctorFails n = false)) := by
  refine ⟨rfl, fun n => ?_⟩
  exact discoverLoop_mem ctorFails (extractQueueNames keys) registry n

/- ### Push-channel initial data (`sendInitialData`) -/

/-- `getQueueMemoryUsage(queueName)`: completely disabled for production
safety — logs a warning and unconditionally returns `0`. -/
def getQueueMemoryUsage (_queueName : String) : Nat := 0

/-- The memory-enrichment loop of `sendInitialData`: for every record from
`updateAllQueueStats()`, overwrite `memoryUsage` with the (disabled)
`getQueueMemoryUsage` result rendered as `{bytes, mb}`.  The `catch`
branch of the loop would set `{bytes: 0, mb: "0.00"}`, but nothing in the
`try` can fail. -/
def sendInitialDataStats (stats : List QueueStatsRecord) :
    List QueueStatsRecord :=
  stats.map (fun queueStat =>
    let memoryBytes := getQueueMemoryUsage queueStat.name
    { queueStat with
      memoryUsage := some { bytes := memoryBytes, mb := formatMB memoryBytes } })

/-- C10: every record emitted on the `queueStats` push event carries
`memoryUsage = {bytes: 0, mb: "0.00"}` — `sendInitialData` overwrites
whatever `getQueueStats` computed with the result of the disabled
`getQueueMemoryUsage`. -/
theorem claim_C10_memory_always_zero (stats : List QueueStatsRecord)
    (r : QueueStatsRecord) (hr : r ∈ sendInitialDataStats stats) :
    r.memoryUsage = some { bytes := 0, mb := "0.00" } := by
  rcases List.mem_map.mp hr with ⟨s, _, rfl⟩
  have h0 : formatMB 0 = "0.00" := by decide
  simp [getQueueMemoryUsage, h0]

/-- C10 witness: a concrete record run through `sendInitialData` comes out
with `memoryUsage = {bytes: 0, mb: "0.00"}`. -/
theorem claim_C10_witness :
    ({ name := "orders", waiting := 1, active := 2, completed := 3,
       failed := 4, delayed := 5, paused := false, total := 15,
       memoryUsage := some { bytes := 0, mb := "0.00" }, error := none,
       lastUpdated := "t" } : QueueStatsRecord).memoryUsage =
      some { bytes := 0, mb := "0.00" } :=
  claim_C10_memory_always_zero
    [{ name := "orders", waiting := 1, active := 2, completed := 3,
       failed := 4, delayed := 5, paused := false, total := 15,
       memoryUsage := none, error := none, lastUpdated := "t" }]
    _ (by decide)

/- ### CPU rate calculator -/

/-- The process-wide `previousCpuValues` singleton.  `used_cpu_sys` and
`used_cpu_user` hold JavaScript numbers (they become `parseFloat` results
after the first update); `timestamp` is a `Date.now()` millisecond
reading. -/
structure CpuState where
  used_cpu_sys : JSNum
  used_cpu_user : JSNum
  timestamp : ℚ
deriving DecidableEq

/-- The module-load initializer of `previousCpuValues`:
`{used_cpu_sys: 0, used_cpu_user: 0, timestamp: Date.now()}`.
`startMs` is the `Date.now()` reading taken at process start. -/
def initialPreviousCpuValues (startMs : ℚ) : CpuState :=
  { used_cpu_sys := some 0, used_cpu_user := some 0, timestamp := startMs }

/-- `calculateCpuUsagePercent(info)`: reads the two cumulative CPU
counters from the parsed `INFO` object, turns them into a rate against the
previous sample when `previousCpuValues.timestamp > 0` and the elapsed
time is positive, clamps to `[0, 100]`, and replaces the previous sample
with the current one.  Returns the percentage together with the updated
singleton. -/
def calculateCpuUsagePercent (info : List (String × String))
    (prev : CpuState) (nowMs : ℚ) : JSNum × CpuState :=
  let currentCpuSys := getNumField info "used_cpu_sys"
  let currentCpuUser := getNumField info "used_cpu_user"
  let cpuUsagePercent : JSNum :=
    if 0 < prev.timestamp then
      let timeDiff := (nowMs - prev.timestamp) / 1000
      let cpuSysDiff := jsub currentCpuSys prev.used_cpu_sys
      let cpuUserDiff := jsub currentCpuUser prev.used_cpu_user
      let totalCpuDiff := jadd cpuSysDiff cpuUserDiff
      if 0 < timeDiff then
        jmin (some 100) (jmax (some 0) (jmul (jdiv totalCpuDiff (some timeDiff)) (some 100)))
      else some 0
    else some 0
  (cpuUsagePercent,
    { used_cpu_sys := currentCpuSys, used_cpu_user := currentCpuUser,
      timestamp := nowMs })

/-- C3: the first-ever rate computation does NOT always yield 0.  The
initializer sets `timestamp: Date.now()` (a positive reading), so the
`previousCpuValues.timestamp > 0` guard — which is what would make the
first call return 0 — is already true on the first call: with the process
started at 1000 ms and `INFO` reporting `used_cpu_sys = 1`,
`used_cpu_user = 0` at 2000 ms, the first computation returns 100, not 0.
This contradicts both the specification ("epoch values of zero, meaning
the first computation always yields a zero rate") and the evident purpose
of the guard, which is dead code under the actual initializer. -/
theorem claim_C3_first_call_nonzero :
    (calculateCpuUsagePercent [("used_cpu_sys", "1"), ("used_cpu_user", "0")]
        (initialPreviousCpuValues 1000) 2000).1 = some 100 ∧
      (calculateCpuUsagePercent [("used_cpu_sys", "1"), ("used_cpu_user", "0")]
        (initialPreviousCpuValues 1000) 2000).1 ≠ some 0 := by
  constructor <;> decide

/- ### INFO parsing -/

/-- `parseRedisInfo(infoString)`: split on CRLF; keep lines that are
non-empty, do not start with `#`, and contain a colon; destructure
`[key, value] = line.split(":")` (extra segments dropped); store
`info[key.trim()] = value.trim()` when `key` is truthy.  Assignment order
is kept so that later duplicate keys win on lookup (`objGet`). -/
def parseRedisInfo (infoString : String) : List (String × String) :=
  if infoString = "" then []
  else
    (jsSplitCRLF infoString).filterMap (fun line =>
      if line ≠ "" ∧ startsWithHash line = false ∧
          2 ≤ (jsSplitColon line).length then
        let parts := jsSplitColon line
        let key := parts.headD ""
        let value := parts.getD 1 ""
        if key ≠ "" then some (jsTrim key, jsTrim value) else none
      else none)

/-- The inline parsing loop at the top of `getRedisMetrics`: every line
containing a colon contributes `metrics[key] = value` — no `#`-comment
filtering, no trimming, no truthiness check on the key. -/
def inlineParseInfo (infoString : String) : List (String × String) :=
  (jsSplitCRLF infoString).filterMap (fun line =>
    let parts := jsSplitColon line
    if 2 ≤ parts.length then some (parts.headD "", parts.getD 1 "")
    else none)

/- ### Metrics history -/

/-- The process-wide `redisMetricsHistory` object. -/
structure MetricsHistory where
  cpu : List JSNum
  memory : List JSNum
  timestamps : List String
deriving DecidableEq

/-- Module-load initializer: three empty arrays. -/
def emptyMetricsHistory : MetricsHistory :=
  { cpu := [], memory := [], timestamps := [] }

def MAX_HISTORY_POINTS : Nat := 50

/-- The history-update block of `getRedisMetrics`: push onto all three
arrays, then—if the `cpu` array length now exceeds `MAX_HISTORY_POINTS`—
`shift()` (drop the front, i.e. the oldest element) from all three. -/
def pushMetricsHistory (h : MetricsHistory) (c m : JSNum) (t : String) :
    MetricsHistory :=
  let h1 : MetricsHistory :=
    { cpu := h.cpu ++ [c], memory := h.memory ++ [m],
      timestamps := h.timestamps ++ [t] }
  if MAX_HISTORY_POINTS < h1.cpu.length then
    { cpu := h1.cpu.tail, memory := h1.memory.tail,
      timestamps := h1.timestamps.tail }
  else h1

/- ### `getRedisMetrics` (push-channel metrics path) -/

/-- External outcomes consumed by one `getRedisMetrics` call:
`isOpen` is `redisClient.isOpen`; `infoResult` the outcome of
`withTimeout(redisClient.info(), 3000)` (an `error` models a timeout or
rejection); `dbSizeResult` the outcome of
`withTimeout(redisClient.dbSize(), 1000)`. -/
structure RedisEnv where
  isOpen : Bool
  infoResult : Except String String
  dbSizeResult : Except String Nat

/-- The object returned by a successful `getRedisMetrics` call. -/
structure RMSnapshot where
  cpuCurrent : JSNum
  cpuHistory : List JSNum
  memoryUsed : JSNum
  memoryMax : JSNum
  memoryUsagePercent : JSNum
  memoryHistory : List JSNum
  timestamps : List String
  connectedClients : JSNum
  totalKeys : Nat
  totalKeysSizeMB : JSNum
  keyspaceHits : JSNum
  keyspaceMisses : JSNum
deriving DecidableEq

/-- JavaScript `a || b` on numbers: `a` when truthy (a number other than
`0` and `NaN`), else `b`. -/
def jsNumOr (a b : JSNum) : JSNum :=
  match a with
  | some q => if q = 0 then b else some q
  | none => b

/-- `getRedisMetrics()`: returns `null` (`none`) when the client is not
open or the `INFO` call fails; otherwise parses the info text inline,
computes the CPU rate against `previousCpuValues` (updating it), derives
memory usage, pushes one point onto each history array (evicting the
oldest beyond `MAX_HISTORY_POINTS`), and fills the key-count fields from
`DBSIZE` (zero fallbacks when that inner call fails).  Returns the
snapshot together with the updated `previousCpuValues` and history. -/
def getRedisMetrics (env : RedisEnv) (st : CpuState) (hist : MetricsHistory)
    (nowMs : ℚ) (nowIso : String) :
    Option RMSnapshot × CpuState × MetricsHistory :=
  if env.isOpen = false then (none, st, hist)
  else
    match env.infoResult with
    | .error _ => (none, st, hist)
    | .ok infoStr =>
      let metrics := inlineParseInfo infoStr
      let currentCpuSys := getNumField metrics "used_cpu_sys"
      let currentCpuUser := getNumField metrics "used_cpu_user"
      let cpuUsagePercent : JSNum :=
        if 0 < st.timestamp then
          let timeDiff := (nowMs - st.timestamp) / 1000
          let cpuSysDiff := jsub currentCpuSys st.used_cpu_sys
          let cpuUserDiff := jsub currentCpuUser st.used_cpu_user
          let totalCpuDiff := jadd cpuSysDiff cpuUserDiff
          if 0 < timeDiff then
            jmin (some 100)
              (jmax (some 0) (jmul (jdiv totalCpuDiff (some timeDiff)) (some 100)))
          else some 0
        else some 0
      let st1 : CpuState :=
        { used_cpu_sys := currentCpuSys, used_cpu_user := currentCpuUser,
          timestamp := nowMs }
      let memoryUsed := getIntField metrics "used_memory"
      let memoryMax :=
        jsNumOr (getIntField metrics "maxmemory")
          (getIntField metrics "total_system_memory")
      let memoryUsagePercent : JSNum :=
        match memoryMax with
        | some mx =>
          if 0 < mx then jmul (jdiv memoryUsed (some mx)) (some 100)
          else some 0
        | none => some 0
      let hist1 := pushMetricsHistory hist cpuUsagePercent memoryUsagePercent nowIso
      let keyCounts : Nat × JSNum :=
        match env.dbSizeResult with
        | .ok dbKeys =>
          (dbKeys,
            jsMathRound
              (jdiv (getIntField metrics "used_memory_dataset")
                (some (1024 * 1024))))
        | .error _ => (0, some 0)
      (some
        { cpuCurrent := cpuUsagePercent, cpuHistory := hist1.cpu,
          memoryUsed := memoryUsed, memoryMax := memoryMax,
          memoryUsagePercent := memoryUsagePercent,
          memoryHistory := hist1.memory, timestamps := hist1.timestamps,
          connectedClients := getIntField metrics "connected_clients",
          totalKeys := keyCounts.1, totalKeysSizeMB := keyCounts.2,
          keyspaceHits := getIntField metrics "keyspace_hits",
          keyspaceMisses := getIntField metrics "keyspace_misses" },
        st1, hist1)

/-- One `getRedisMetrics` invocation's inputs: the external outcomes plus
the two clock readings taken during the call. -/
structure MetricsCall where
  env : RedisEnv
  nowMs : ℚ
  nowIso : String

/-- A sequence of successive `getRedisMetrics` calls, threading the
`previousCpuValues` and `redisMetricsHistory` singletons. -/
def runGetRedisMetrics (calls : List MetricsCall)
    (s : CpuState × MetricsHistory) : CpuState × MetricsHistory :=
  calls.foldl
    (fun acc call =>
      let r := getRedisMetrics call.env acc.1 acc.2 call.nowMs call.nowIso
      (r.2.1, r.2.2)) s

/-- The C7 invariant: the three history arrays have equal lengths, bounded
by `MAX_HISTORY_POINTS`. -/
def HistInv (h : MetricsHistory) : Prop :=
  h.cpu.length = h.memory.length ∧
    h.memory.length = h.timestamps.length ∧
    h.cpu.length ≤ MAX_HISTORY_POINTS

lemma list_tail_append_singleton {α : Type} (l : List α) (x : α)
    (hl : l ≠ []) : (l ++ [x]).tail = l.tail ++ [x] := by
  cases l with
  | nil => exact absurd rfl hl
  | cons a t => rfl

lemma pushMetricsHistory_inv (h : MetricsHistory) (c m : JSNum) (t : String)
    (hinv : HistInv h) : HistInv (pushMetricsHistory h c m t) := by
  obtain ⟨h1, h2, h3⟩ := hinv
  simp only [HistInv, pushMetricsHistory]
  split
  · next hc =>
    simp only [List.length_append, List.length_singleton] at hc
    refine ⟨?_, ?_, ?_⟩ <;>
      simp only [List.length_tail, List.length_append, List.length_singleton] <;>
      omega
  · next hc =>
    simp only [List.length_append, List.length_singleton] at hc ⊢
    omega

lemma getRedisMetrics_hist (env : RedisEnv) (st : CpuState)
    (hist : MetricsHistory) (nowMs : ℚ) (nowIso : String) :
    (getRedisMetrics env st hist nowMs nowIso).2.2 = hist ∨
      ∃ c m, (getRedisMetrics env st hist nowMs nowIso).2.2 =
        pushMetricsHistory hist c m nowIso := by
  unfold getRedisMetrics
  rcases env with ⟨isOpen, infoR, dbR⟩
  cases isOpen with
  | false => exact Or.inl rfl
  | true =>
    cases infoR with
    | error e => exact Or.inl rfl
    | ok infoStr => exact Or.inr ⟨_, _, rfl⟩

lemma runGetRedisMetrics_inv (calls : List MetricsCall) :
    ∀ (s : CpuState × MetricsHistory), HistInv s.2 →
      HistInv (runGetRedisMetrics calls s).2 := by
  induction calls with
  | nil => intro s hs; exact hs
  | cons call rest ih =>
    intro s hs
    have hstep :
        HistInv (getRedisMetrics call.env s.1 s.2 call.nowMs call.nowIso).2.2 := by
      rcases getRedisMetrics_hist call.env s.1 s.2 call.nowMs call.nowIso with
        he | ⟨c, m, he⟩
      · rw [he]; exact hs
      · rw [he]; exact pushMetricsHistory_inv _ _ _ _ hs
    exact ih _ hstep

lemma pushMetricsHistory_evict (h : MetricsHistory) (c m : JSNum) (t : String)
    (hc : h.cpu.length = MAX_HISTORY_POINTS)
    (hm : h.memory.length = MAX_HISTORY_POINTS)
    (ht : h.timestamps.length = MAX_HISTORY_POINTS) :
    pushMetricsHistory h c m t =
      { cpu := h.cpu.tail ++ [c], memory := h.memory.tail ++ [m],
        timestamps := h.timestamps.tail ++ [t] } := by
  have hcond : MAX_HISTORY_POINTS < (h.cpu ++ [c]).length := by
    simp [hc]
  have hcpu : h.cpu ≠ [] := by
    intro hnil; rw [hnil] at hc; simp [MAX_HISTORY_POINTS] at hc
  have hmem : h.memory ≠ [] := by
    intro hnil; rw [hnil] at hm; simp [MAX_HISTORY_POINTS] at hm
  have hts : h.timestamps ≠ [] := by
    intro hnil; rw [hnil] at ht; simp [MAX_HISTORY_POINTS] at ht
  simp only [pushMetricsHistory]
  rw [if_pos hcond]
  congr 1
  · exact list_tail_append_singleton h.cpu c hcpu
  · exact list_tail_append_singleton h.memory m hmem
  · exact list_tail_append_singleton h.timestamps t hts

/-- C7: starting from the empty module-load history, after any number of
successive `getRedisMetrics` calls the three history arrays have equal
lengths, each at most `MAX_HISTORY_POINTS` (50); and whenever the arrays
are full, the next push evicts the oldest (front) element of each in
lockstep. -/
theorem claim_C7_history_lockstep (startMs : ℚ) (calls : List MetricsCall) :
    ((runGetRedisMetrics calls
          (initialPreviousCpuValues startMs, emptyMetricsHistory)).2.cpu.length =
        (runGetRedisMetrics calls
          (initialPreviousCpuValues startMs, emptyMetricsHistory)).2.memory.length ∧
      (runGetRedisMetrics calls
          (initialPreviousCpuValues startMs, emptyMetricsHistory)).2.memory.length =
        (runGetRedisMetrics calls
          (initialPreviousCpuValues startMs, emptyMetricsHistory)).2.timestamps.length ∧
      (runGetRedisMetrics calls
          (initialPreviousCpuValues startMs, emptyMetricsHistory)).2.cpu.length ≤
        MAX_HISTORY_POINTS) ∧
      ∀ (h : MetricsHistory) (c m : JSNum) (t : String),
        h.cpu.length = MAX_HISTORY_POINTS →
        h.memory.length = MAX_HISTORY_POINTS →
        h.timestamps.length = MAX_HISTORY_POINTS →
        pushMetricsHistory h c m t =
          { cpu := h.cpu.tail ++ [c], memory := h.memory.tail ++ [m],
            timestamps := h.timestamps.tail ++ [t] } := by
  constructor
  · exact runGetRedisMetrics_inv calls
      (initialPreviousCpuValues startMs, emptyMetricsHistory) ⟨rfl, rfl, by simp [MAX_HISTORY_POINTS, emptyMetricsHistory]⟩
  · exact fun h c m t => pushMetricsHistory_evict h c m t

/-- C7 witness: the eviction clause applied at a concrete full history —
pushing onto three 50-element arrays drops the front element of each. -/
theorem claim_C7_witness :
    pushMetricsHistory
        { cpu := List.replicate 50 (some 0), memory := List.replicate 50 (some 0),
          timestamps := List.replicate 50 "x" } (some 1) (some 2) "t" =
      { cpu := (List.replicate 50 ((some 0 : JSNum))).tail ++ [some 1],
        memory := (List.replicate 50 ((some 0 : JSNum))).tail ++ [some 2],
        timestamps := (List.replicate 50 "x").tail ++ ["t"] } :=
  (claim_C7_history_lockstep 0 []).2
    { cpu := List.replicate 50 (some 0), memory := List.replicate 50 (some 0),
      timestamps := List.replicate 50 "x" } (some 1) (some 2) "t"
    (by simp [MAX_HISTORY_POINTS]) (by simp [MAX_HISTORY_POINTS])
    (by simp [MAX_HISTORY_POINTS])

/-- C5 counterexample: with the backing store disconnected, the
push-channel metrics computation `getRedisMetrics` yields `null` — not a
well-formed zeroed `MetricsSnapshot`. -/
theorem claim_C5_counterexample :
    (getRedisMetrics
        { isOpen := false, infoResult := Except.ok "",
          dbSizeResult := Except.ok 0 }
        (initialPreviousCpuValues 5) emptyMetricsHistory 10 "t").1 = none :=
  rfl

/- ### `GET /api/redis-metrics` handler -/

/-- External outcomes consumed by one `/api/redis-metrics` request:
`isOpen` is `redisClient.isOpen`; `infoResult` the outcome of
`withTimeout(redisClient.info(), 5000)`; `dbSizeResult` the outcome of
`withTimeout(redisClient.dbSize(), 5000)`; `nowMs` the `Date.now()`
reading inside `calculateCpuUsagePercent`; `nowIso` the
`new Date().toISOString()` reading. -/
structure EndpointEnv where
  isOpen : Bool
  infoResult : Except String String
  dbSizeResult : Except String Nat
  nowMs : ℚ
  nowIso : String

/-- The success-branch response object of `/api/redis-metrics`.  Note its
shape differs from the `getRedisMetrics` snapshot: histories are fresh
singleton arrays, and `memoryUsagePercent` is a `toFixed(2)` string. -/
structure SuccessMetrics where
  cpuCurrent : JSNum
  cpuHistory : List JSNum
  memoryUsed : JSNum
  memoryMax : JSNum
  memoryUsagePercent : String
  memoryHistory : List JSNum
  timestamps : List String
  connectedClients : JSNum
  totalKeys : Nat
  totalKeysSizeMB : JSNum
  keyspaceHits : JSNum
  keyspaceMisses : JSNum
deriving DecidableEq

/-- Response body of `/api/redis-metrics`: either the success-branch
metrics or the `defaultMetrics` object (fully zeroed, `cpu.history` and
`memory.history` equal to `[0, 0, 0]`, a single current timestamp). -/
inductive MetricsBody
  | success (m : SuccessMetrics)
  | defaults (nowIso : String)
deriving DecidableEq

/-- JavaScript `a || b` where `a` is a possibly-missing string property
and the fallback chain ends in the number `0`: returns the first truthy
(present and non-empty) string, `none` when every string is falsy. -/
def truthyStr (a : Option String) : Option String :=
  match a with
  | some s => if s = "" then none else some s
  | none => none

/-- `app.get("/api/redis-metrics")`: disconnected client, failed or empty
`INFO`, and failed `DBSIZE` all fall back to `res.json(defaultMetrics)`
with status 200; otherwise the response is computed from the parsed info
(`parseRedisInfo`), the CPU rate calculator (which updates
`previousCpuValues`), and `DBSIZE`.  Nothing inside the outer `try` can
throw once those outcomes are fixed, so the 500 branch is unreachable and
not modelled.  Returns `(status, body)` with the updated singleton. -/
def redisMetricsHandler (env : EndpointEnv) (st : CpuState) :
    (Nat × MetricsBody) × CpuState :=
  if env.isOpen = false then ((200, .defaults env.nowIso), st)
  else
    match env.infoResult with
    | .error _ => ((200, .defaults env.nowIso), st)
    | .ok infoStr =>
      if infoStr = "" then ((200, .defaults env.nowIso), st)
      else
        let info := parseRedisInfo infoStr
        match env.dbSizeResult with
        | .error _ => ((200, .defaults env.nowIso), st)
        | .ok dbSize =>
          let usedMemory := getIntField info "used_memory"
          let maxMemoryStr :=
            match truthyStr (objGet info "maxmemory") with
            | some s => some s
            | none => truthyStr (objGet info "total_system_memory")
          let maxMemory : JSNum :=
            match maxMemoryStr with
            | some s => jsParseInt s
            | none => some 0
          let cpuResult := calculateCpuUsagePercent info st env.nowMs
          let usagePercentStr : String :=
            match maxMemory with
            | some mx =>
              if 0 < mx then jsToFixed2 (jmul (jdiv usedMemory (some mx)) (some 100))
              else "0.00"
            | none => "0.00"
          ((200,
            .success
              { cpuCurrent := cpuResult.1, cpuHistory := [cpuResult.1],
                memoryUsed := usedMemory, memoryMax := maxMemory,
                memoryUsagePercent := usagePercentStr,
                memoryHistory := [usedMemory], timestamps := [env.nowIso],
                connectedClients := getIntField info "connected_clients",
                totalKeys := dbSize,
                totalKeysSizeMB := jsMathRound (jdiv usedMemory (some (1024 * 1024))),
                keyspaceHits := getIntField info "keyspace_hits",
                keyspaceMisses := getIntField info "keyspace_misses" }),
            cpuResult.2)

/-- The failure conditions of the `/api/redis-metrics` snapshot
computation: disconnected store, failed or empty `INFO` reply, or failed
`DBSIZE`. -/
def endpointFailure (env : EndpointEnv) : Prop :=
  env.isOpen = false ∨ (∃ m, env.infoResult = Except.error m) ∨
    env.infoResult = Except.ok "" ∨ (∃ m, env.dbSizeResult = Except.error m)

/-- C5 (amended): every failure of the `/api/redis-metrics` snapshot
computation (disconnected store, `INFO` timeout/failure or empty reply,
`DBSIZE` failure) yields HTTP 200 with the well-formed zeroed
`defaultMetrics` body — never a thrown failure — and leaves the CPU rate
state untouched.  The push-channel computation `getRedisMetrics`, by
contrast, returns `null` rather than a zeroed snapshot on failure (see
the counterexample). -/
theorem claim_C5_failure_yields_defaults (env : EndpointEnv) (st : CpuState)
    (hfail : endpointFailure env) :
    redisMetricsHandler env st = ((200, .defaults env.nowIso), st) := by
  rcases env with ⟨isOpen, infoR, dbR, nowMs, nowIso⟩
  rcases hfail with h | ⟨m, h⟩ | h | ⟨m, h⟩
  · simp only at h
    simp [redisMetricsHandler, h]
  · simp only at h
    subst h
    cases isOpen <;> simp [redisMetricsHandler]
  · simp only at h
    subst h
    cases isOpen <;> simp [redisMetricsHandler]
  · simp only at h
    subst h
    cases isOpen
    · simp [redisMetricsHandler]
    · cases infoR with
      | error e => simp [redisMetricsHandler]
      | ok s =>
        by_cases hs : s = "" <;> simp [redisMetricsHandler, hs]

/-- C5 witness: a concrete disconnected-store request returns 200 with
the zeroed defaults and an unchanged rate state. -/
theorem claim_C5_witness :
    redisMetricsHandler
        { isOpen := false, infoResult := Except.ok "", dbSizeResult := Except.ok 0,
          nowMs := 10, nowIso := "t" } (initialPreviousCpuValues 5) =
      ((200, .defaults "t"), initialPreviousCpuValues 5) :=
  claim_C5_failure_yields_defaults
    { isOpen := false, infoResult := Except.ok "", dbSizeResult := Except.ok 0,
      nowMs := 10, nowIso := "t" } (initialPreviousCpuValues 5) (Or.inl rfl)

/- ### Key Inspector: hash-case display -/

/-- JavaScript object assignment `obj[k] = v`: if `k` is already present,
its value is replaced in place (insertion order preserved); otherwise the
pair is appended. -/
def objSet (obj : List (String × String)) (k v : String) :
    List (String × String) :=
  if obj.any (fun p => p.1 = k) then
    obj.map (fun p => if p.1 = k then (k, v) else p)
  else obj ++ [(k, v)]

/-- Build a JavaScript object by assigning the pairs in order (models the
`forEach` loop populating `hashObj`, and `hGetAll`'s result object). -/
def objOfPairs (pairs : List (String × String)) : List (String × String) :=
  pairs.foldl (fun acc p => objSet acc p.1 p.2) []

/-- `HMGET` for a single requested field: the stored value.  The handler
only requests names obtained from `HKEYS`, so every requested field
exists; a Redis hash cannot contain duplicate field names, so the first
match is the value. -/
def hmGet (fields : List (String × String)) (k : String) : String :=
  ((fields.find? (fun p => p.1 = k)).map (fun p => p.2)).getD ""

/-- The `"...(N more fields)"` marker string appended by the hash case. -/
def hashMarker (omitted : Nat) : String :=
  "(" ++ toString omitted ++ " more fields - showing first 50)"

/-- The `case "hash"` branch of the `/api/queues/:queueName/keys`
handler (no hash-subquery failure): `fields` is the hash content in the
store's native enumeration order.  With `HLEN > 100`, take the first 50
`HKEYS` names, fetch them with `HMGET`, build the display object, and
assign the `"..."` summary entry; otherwise return the full `HGETALL`
object. -/
def hashDisplayValue (fields : List (String × String)) :
    List (String × String) :=
  let hashLength := fields.length
  if 100 < hashLength then
    let hashKeys := fields.map Prod.fst
    let limitedHashKeys := hashKeys.take 50
    let values := limitedHashKeys.map (fun k => hmGet fields k)
    let hashObj := objOfPairs (limitedHashKeys.zip values)
    objSet hashObj "..." (hashMarker (hashLength - 50))
  else objOfPairs fields

/-- A 101-field hash whose first field is literally named `"..."`. -/
def dotsHashFields : List (String × String) :=
  ("...", "v") :: (List.range 100).map (fun i => (toString i, "w"))

set_option maxRecDepth 40000 in
/-- C8 counterexample: on a 101-field hash whose first field is named
`"..."`, the handler returns only 50 entries — the summary assignment
`hashObj["..."] = ...` overwrites the real `"..."` field instead of
appending a 51st synthetic entry, so the output is NOT
"the first 50 field entries plus one synthetic marker entry". -/
theorem claim_C8_counterexample :
    (hashDisplayValue dotsHashFields).length = 50 ∧
      hashDisplayValue dotsHashFields ≠
        dotsHashFields.take 50 ++ [("...", hashMarker 51)] := by
  constructor <;> decide

lemma objSet_append (acc : List (String × String)) (k v : String)
    (hk : k ∉ acc.map Prod.fst) : objSet acc k v = acc ++ [(k, v)] := by
  unfold objSet
  rw [if_neg]
  simp only [List.any_eq_true, decide_eq_true_eq, not_exists, not_and]
  intro p hp e
  exact hk (e ▸ List.mem_map_of_mem Prod.fst hp)

lemma objOfPairs_go (l : List (String × String)) :
    ∀ (acc : List (String × String)), (l.map Prod.fst).Nodup →
      (∀ p ∈ l, p.1 ∉ acc.map Prod.fst) →
      l.foldl (fun a p => objSet a p.1 p.2) acc = acc ++ l := by
  induction l with
  | nil => intro acc _ _; simp
  | cons a t ih =>
    intro acc hnd hdisj
    simp only [List.map_cons] at hnd
    have ha1 : a.1 ∉ t.map Prod.fst := (List.nodup_cons.mp hnd).1
    have hdisj1 : ∀ p ∈ t, p.1 ∉ (acc ++ [a]).map Prod.fst := by
      intro p hp
      simp only [List.map_append, List.mem_append, List.map_cons,
        List.map_nil, List.mem_singleton, not_or]
      exact ⟨hdisj p (List.mem_cons_of_mem a hp),
        fun e => ha1 (e ▸ List.mem_map_of_mem Prod.fst hp)⟩
    simp only [List.foldl_cons]
    rw [objSet_append acc a.1 a.2 (hdisj a (List.mem_cons_self a t))]
    rw [ih (acc ++ [a]) hnd.of_cons hdisj1]
    simp

lemma objOfPairs_eq_self (l : List (String × String))
    (hnd : (l.map Prod.fst).Nodup) : objOfPairs l = l := by
  have h := objOfPairs_go l [] hnd (by simp)
  simpa [objOfPairs] using h

lemma hmGet_head (p : String × String) (t : List (String × String)) :
    hmGet (p :: t) p.1 = p.2 := by
  simp [hmGet, List.find?_cons]

lemma hmGet_tail (p : String × String) (t : List (String × String))
    (k : String) (hk : k ≠ p.1) : hmGet (p :: t) k = hmGet t k := by
  unfold hmGet
  rw [List.find?_cons_of_neg]
  simp only [decide_eq_true_eq]
  exact fun e => hk e.symm

lemma hmGet_names (l : List (String × String))
    (hnd : (l.map Prod.fst).Nodup) :
    (l.map Prod.fst).map (fun k => hmGet l k) = l.map Prod.snd := by
  induction l with
  | nil => rfl
  | cons p t ih =>
    simp only [List.map_cons] at hnd ⊢
    have hp1 : p.1 ∉ t.map Prod.fst := (List.nodup_cons.mp hnd).1
    congr 1
    · exact hmGet_head p t
    · have hcongr : ∀ k ∈ t.map Prod.fst, hmGet (p :: t) k = hmGet t k :=
        fun k hk => hmGet_tail p t k (fun e => hp1 (e ▸ hk))
      rw [List.map_congr_left hcongr]
      exact ih hnd.of_cons

/-- C8 (amended): for a hash-typed key with no field literally named
`"..."` among its first 50 fields, the Key Inspector returns all fields
when the field count is at most 100; when it exceeds 100, exactly the
first 50 field entries plus one synthetic `"..."` entry stating how many
fields were omitted (`count − 50`; e.g. 100 for a 150-field hash).  (A
field actually named `"..."` in the first 50 would be overwritten by the
marker instead — see the counterexample.) -/
theorem claim_C8_hash_truncation (fields : List (String × String))
    (hnd : (fields.map Prod.fst).Nodup) :
    (fields.length ≤ 100 → hashDisplayValue fields = fields) ∧
      (100 < fields.length → "..." ∉ (fields.map Prod.fst).take 50 →
        hashDisplayValue fields =
          fields.take 50 ++ [("...", hashMarker (fields.length - 50))]) := by
  constructor
  · intro hle
    simp only [hashDisplayValue]
    rw [if_neg (by omega)]
    exact objOfPairs_eq_self fields hnd
  · intro hgt hdots
    simp only [hashDisplayValue]
    rw [if_pos hgt]
    have hvals : List.map (fun k => hmGet fields k)
          (List.take 50 (List.map Prod.fst fields)) =
        List.take 50 (List.map Prod.snd fields) := by
      rw [List.map_take, hmGet_names fields hnd]
    rw [hvals]
    have hzip : (List.take 50 (List.map Prod.fst fields)).zip
          (List.take 50 (List.map Prod.snd fields)) = List.take 50 fields := by
      rw [← List.map_take, ← List.map_take, List.zip_map']
      simp
    rw [hzip]
    have hnd50 : ((List.take 50 fields).map Prod.fst).Nodup := by
      rw [List.map_take]
      exact List.Nodup.sublist (List.take_sublist 50 _) hnd
    rw [objOfPairs_eq_self _ hnd50]
    refine objSet_append _ _ _ ?_
    rw [List.map_take]
    exact hdots

set_option maxRecDepth 40000 in
/-- C8 witness: a concrete 101-field hash (field names `"0"`..`"100"`)
is truncated to its first 50 entries plus the `"(51 more fields -
showing first 50)"` marker. -/
theorem claim_C8_witness :
    hashDisplayValue ((List.range 101).map (fun i => (toString i, "w"))) =
      ((List.range 101).map (fun i => (toString i, "w"))).take 50 ++
        [("...", hashMarker 51)] :=
  ((claim_C8_hash_truncation ((List.range 101).map (fun i => (toString i, "w")))
      (by decide)).2 (by decide) (by decide))

/- ### Key Inspector: per-key records (`/api/queues/:queueName/keys`) -/

/-- An element of a JSON array produced for a key's `value`: either a
plain string (list/set members and truncation markers) or a
`{value, score}` object from `ZRANGE ... WITHSCORES`. -/
inductive ArrItem
  | s (x : String)
  | zscore (value score : String)
deriving DecidableEq

/-- The type-dependent `value` field of a `KeyRecord`. -/
inductive ValueRepr
  | str (x : String)
  | obj (fields : List (String × String))
  | arr (items : List ArrItem)
deriving DecidableEq

/-- The store-side content of one key, by native type, as the handler's
sub-queries would observe it.  `hashFailV` models the inner hash
`try/catch`: a hash sub-query threw, and the retried `HLEN` either
returned a count or failed (`none` renders as `"?"`). -/
inductive RedisValueEnv
  | strV (x : String)
  | hashV (fields : List (String × String))
  | hashFailV (lenResult : Option Nat)
  | listV (items : List String)
  | setV (members : List String)
  | zsetV (members : List (String × String))
  | otherV (typeName : String)
deriving DecidableEq

/-- The `type` string reported for each content shape. -/
def redisTypeName : RedisValueEnv → String
  | .strV _ => "string"
  | .hashV _ => "hash"
  | .hashFailV _ => "hash"
  | .listV _ => "list"
  | .setV _ => "set"
  | .zsetV _ => "zset"
  | .otherV t => t

/-- The `switch (type)` of the keys handler: fetch and truncate a key's
value by native type (50-element cut-off with an appended marker for
list/set/zset, the 100/50 hash rule, whole strings, and a
`"[type]"` placeholder for unrecognized types). -/
def computeKeyValue : RedisValueEnv → ValueRepr
  | .strV x => .str x
  | .hashV fields => .obj (hashDisplayValue fields)
  | .hashFailV lenResult =>
    .str ("[Hash with " ++
      (match lenResult with | some n => toString n | none => "?") ++ " fields]")
  | .listV items =>
    let listLength := items.length
    if 50 < listLength then
      .arr ((items.take 50).map ArrItem.s ++
        [ArrItem.s ("... (" ++ toString (listLength - 50) ++
          " more items - showing first 50)")])
    else .arr (items.map ArrItem.s)
  | .setV members =>
    if 50 < members.length then
      .arr ((members.take 50).map ArrItem.s ++
        [ArrItem.s ("... (" ++ toString (members.length - 50) ++
          " more members - showing first 50)")])
    else .arr (members.map ArrItem.s)
  | .zsetV members =>
    let zsetLength := members.length
    if 50 < zsetLength then
      .arr ((members.take 50).map (fun p => ArrItem.zscore p.1 p.2) ++
        [ArrItem.s ("... (" ++ toString (zsetLength - 50) ++
          " more members - showing first 50)")])
    else .arr (members.map (fun p => ArrItem.zscore p.1 p.2))
  | .otherV t => .str ("[" ++ t ++ "]")

/-- External outcomes for one key of the scan: `memResult` is the
`MEMORY USAGE` reply (`none` for a per-key failure or a `null` reply,
both of which become `0` via the inner `catch` and the `|| 0`);
`fetchOutcome` is the whole per-key `try` block (an `error` carries the
thrown message); `typeRetry` is the `TYPE` lookup retried inside the
`catch` (its own failure falls back to `"unknown"`). -/
structure KeyEnv where
  key : String
  memResult : Option Nat
  fetchOutcome : Except String RedisValueEnv
  typeRetry : Except String String

/-- A `KeyRecord` as emitted by the keys endpoint. -/
structure KeyRecord where
  key : String
  type : String
  value : ValueRepr
  memoryUsage : Nat
  size : Nat
  sizeFormatted : String
deriving DecidableEq

/-- Produce one `KeyRecord` from one key's outcomes: the success branch
fills `type`/`value` from the fetched content; the failure branch keeps
the key, reports the retried type (or `"unknown"`), and an error-message
`value` — in both branches `memoryUsage`, `size` and `sizeFormatted` come
from the same memory reply. -/
def processKey (k : KeyEnv) : KeyRecord :=
  let memoryUsage := k.memResult.getD 0
  match k.fetchOutcome with
  | .ok env =>
    { key := k.key, type := redisTypeName env, value := computeKeyValue env,
      memoryUsage := memoryUsage, size := memoryUsage,
      sizeFormatted := formatKB memoryUsage }
  | .error msg =>
    let keyType := match k.typeRetry with | .ok t => t | .error _ => "unknown"
    { key := k.key, type := keyType,
      value := .str ("Failed to fetch (" ++ msg ++ ")"),
      memoryUsage := memoryUsage, size := memoryUsage,
      sizeFormatted := formatKB memoryUsage }

/-- Stable descending insertion by memory usage (ties keep the earlier
element first), matching the stable JavaScript
`sort((a, b) => b.memoryUsage - a.memoryUsage)`. -/
def insertByMemDesc (x : KeyEnv) : List KeyEnv → List KeyEnv
  | [] => [x]
  | y :: ys =>
    if y.memResult.getD 0 < x.memResult.getD 0 then x :: y :: ys
    else y :: insertByMemDesc x ys

/-- Stable sort of the scanned keys, heaviest first. -/
def sortByMemDesc (l : List KeyEnv) : List KeyEnv :=
  l.foldl (fun acc x => insertByMemDesc x acc) []

/-- `app.get("/api/queues/:queueName/keys")`: scan, sort by per-key
memory cost (heaviest first), and emit one `KeyRecord` per key; returns
`{queueName, totalKeys, keys}`. -/
def queueKeysHandler (queueName : String) (scanned : List KeyEnv) :
    String × Nat × List KeyRecord :=
  (queueName, scanned.length, (sortByMemDesc scanned).map processKey)

/-- C9: every `KeyRecord` emitted by the keys endpoint — including
records produced on per-key fetch failure — has `sizeFormatted` equal to
the deterministic rendering of its own `memoryUsage` as
`(bytes / 1024).toFixed(2) + " KB"` (`formatKB`); the two fields never
diverge. -/
theorem claim_C9_size_formatted_consistent (queueName : String)
    (scanned : List KeyEnv) (r : KeyRecord)
    (hr : r ∈ (queueKeysHandler queueName scanned).2.2) :
    r.sizeFormatted = formatKB r.memoryUsage := by
  rcases List.mem_map.mp hr with ⟨k, _, rfl⟩
  cases h : k.fetchOutcome <;> simp [processKey, h]

/-- A two-key scan used as the C9 witness input: one key whose fetch
fails, one ordinary string key. -/
def sampleScan : List KeyEnv :=
  [{ key := "bull:orders:1", memResult := some 2048,
     fetchOutcome := Except.error "boom", typeRetry := Except.ok "hash" },
   { key := "bull:orders:2", memResult := some 100,
     fetchOutcome := Except.ok (.strV "payload"),
     typeRetry := Except.ok "string" }]

/-- The failure record the handler emits for the first key of
`sampleScan`: 2048 bytes render as `"2.00 KB"`. -/
def sampleFailureRecord : KeyRecord :=
  { key := "bull:orders:1", type := "hash",
    value := .str "Failed to fetch (boom)", memoryUsage := 2048,
    size := 2048, sizeFormatted := "2.00 KB" }

/-- C9 witness: the failure record emitted for `sampleScan`'s first key
has `sizeFormatted` equal to `formatKB` of its `memoryUsage`. -/
theorem claim_C9_witness :
    sampleFailureRecord.sizeFormatted =
      formatKB sampleFailureRecord.memoryUsage :=
  claim_C9_size_formatted_consistent "orders" sampleScan
    sampleFailureRecord (by decide)
